import Mathlib

/-!
Shallow embedding of `libs/langchain/langchain/chains/hyde/base.py`
(HyDE: Hypothetical Document Embeddings).

The embedding models floating-point vectors as lists of rationals, so that the
arithmetic-mean combination is exact.  External collaborators that the source
imports but that are not part of this repository snapshot (the embedding-model
interface, the language-model interface, the prompt template, the LLM chain and
the prompt registry) are modelled from the spec, as noted on each definition.
-/

/-- A single generated completion; mirrors the `Generation` objects the source
reads from `result.generations`, of which only the `text` field is used. -/
structure Generation where
  text : String
deriving Repr, DecidableEq

/-- Result of an LLM-chain generate call: one ordered group of completions per
submitted input, mirroring `LLMResult.generations` as the source consumes it. -/
structure LLMResult where
  generations : List (List Generation)
deriving Repr, DecidableEq

/-- Modelled from the spec: `BasePromptTemplate` (from `langchain_core.prompts`,
not under src/) — an immutable template declaring its input variables and
capable of rendering itself given a mapping of variable name to value. -/
structure BasePromptTemplate where
  input_variables : List String
  format : List (String × String) → String

/-- Modelled from the spec: `BaseLanguageModel` (from
`langchain_core.language_models`, not under src/) — the generative model
interface: a rendered prompt maps to an ordered list of completion texts. -/
structure BaseLanguageModel where
  generate_prompt : String → List String

/-- Modelled from the spec: `Embeddings` (from `langchain_core.embeddings`, not
under src/) — the embedding model interface: a batch operation mapping an
ordered list of document strings to an ordered list of numeric vectors. -/
structure Embeddings where
  embed_documents : List String → List (List ℚ)

/-- Modelled from the spec: `LLMChain` (from `langchain.chains.llm`, not under
src/) — pairs the generative model with the selected prompt template. -/
structure LLMChain where
  llm : BaseLanguageModel
  prompt : BasePromptTemplate

/-- Modelled from the spec: the LLM chain's input keys are the prompt
template's declared input variables. -/
def LLMChain.input_keys (c : LLMChain) : List String :=
  c.prompt.input_variables

/-- Modelled from the spec: `generate` renders the prompt for each submitted
input binding, invokes the generative model on the rendered prompt, and
collects the completions into one generation group per input, preserving
model-returned order. -/
def LLMChain.generate (c : LLMChain) (inputs : List (List (String × String))) :
    LLMResult :=
  ⟨inputs.map fun inp => (c.llm.generate_prompt (c.prompt.format inp)).map Generation.mk⟩

/-- Python-level runtime failures surfaced by the embedded operations. -/
inductive PyError where
  /-- TypeError: `list(...)` applied to the scalar NaN that
  `np.array([]).mean(axis=0)` returns for an empty input list. -/
  | typeError
  /-- ValueError: `np.array` applied to a ragged (inhomogeneous) nested list. -/
  | valueError
  /-- IndexError: indexing position 0 of an empty list. -/
  | indexError
  /-- Modelled from the spec: the dedicated empty-candidate error the spec
  calls for; the source defines no such error and never raises it. -/
  | emptyCandidateError
deriving Repr, DecidableEq

/-- The HyDE embedder object: a base embedding model plus an internal LLM
chain, mirroring the two pydantic fields of `HypotheticalDocumentEmbedder`. -/
structure HypotheticalDocumentEmbedder where
  base_embeddings : Embeddings
  llm_chain : LLMChain

/-- `HypotheticalDocumentEmbedder.embed_documents`: call the base embeddings. -/
def HypotheticalDocumentEmbedder.embed_documents
    (e : HypotheticalDocumentEmbedder) (texts : List String) : List (List ℚ) :=
  e.base_embeddings.embed_documents texts

/-- `HypotheticalDocumentEmbedder.combine_embeddings`:
`list(np.array(embeddings).mean(axis=0))`.  `np.array` on a ragged nested list
raises ValueError; on the empty list it yields a shape-(0,) array whose
`mean(axis=0)` is a scalar NaN, so the outer `list(...)` raises TypeError;
otherwise the result is the elementwise arithmetic mean of the rows. -/
def HypotheticalDocumentEmbedder.combine_embeddings
    (embeddings : List (List ℚ)) : Except PyError (List ℚ) :=
  match embeddings with
  | [] => .error .typeError
  | v :: vs =>
    if vs.all fun w => w.length == v.length then
      .ok ((List.range v.length).map fun i =>
        ((v :: vs).map fun w => w.getD i 0).sum / ((v :: vs).length : ℚ))
    else .error .valueError

/-- `HypotheticalDocumentEmbedder.embed_query`: bind the chain's first input
key to the query text, generate, embed the texts of the first generation
group, and combine.  `input_keys[0]` and `result.generations[0]` raise
IndexError when the respective list is empty. -/
def HypotheticalDocumentEmbedder.embed_query
    (e : HypotheticalDocumentEmbedder) (text : String) : Except PyError (List ℚ) :=
  match e.llm_chain.input_keys.head? with
  | none => .error .indexError
  | some var_name =>
    let result := e.llm_chain.generate [[(var_name, text)]]
    match result.generations.head? with
    | none => .error .indexError
    | some gens =>
      let documents := gens.map Generation.text
      let embeddings := e.embed_documents documents
      HypotheticalDocumentEmbedder.combine_embeddings embeddings

/-- Configuration failure raised at construction time: the source raises
`ValueError` with a message that interpolates `list(PROMPT_MAP.keys())`,
modelled by carrying that key list in the error value. -/
inductive ConfigError where
  | mustSpecifyPromptKey (valid_keys : List String)
deriving Repr, DecidableEq

/-- `HypotheticalDocumentEmbedder.from_llm`: choose the custom prompt if given,
else look the key up in the registry, else fail listing the registry's keys,
and build the embedder around `LLMChain(llm, prompt)`.  The static registry
`PROMPT_MAP` lives in `langchain.chains.hyde.prompts`, which is not under
src/; modelled from the spec as an explicit immutable association list
(process-wide, read-only, unique keys, deployment-defined content) passed as a
parameter. -/
def HypotheticalDocumentEmbedder.from_llm
    (llm : BaseLanguageModel) (base_embeddings : Embeddings)
    (PROMPT_MAP : List (String × BasePromptTemplate))
    (prompt_key : Option String) (custom_prompt : Option BasePromptTemplate) :
    Except ConfigError HypotheticalDocumentEmbedder :=
  match custom_prompt with
  | some p => .ok ⟨base_embeddings, ⟨llm, p⟩⟩
  | none =>
    match prompt_key with
    | some k =>
      match PROMPT_MAP.lookup k with
      | some p => .ok ⟨base_embeddings, ⟨llm, p⟩⟩
      | none => .error (.mustSpecifyPromptKey (PROMPT_MAP.map Prod.fst))
    | none => .error (.mustSpecifyPromptKey (PROMPT_MAP.map Prod.fst))

/-- A generative model stub returning zero completions for every prompt. -/
def stubLLM : BaseLanguageModel := ⟨fun _ => []⟩

/-- An embedding model stub returning one fixed two-dimensional vector per
input document. -/
def stubBase : Embeddings := ⟨fun ts => ts.map fun _ => [(1 : ℚ), 2]⟩

/-- A prompt template stub with one declared input variable. -/
def stubPrompt : BasePromptTemplate := ⟨["QUESTION"], fun _ => "hypothetical answer"⟩

/-- A concrete embedder built from the stubs. -/
def stubEmbedder : HypotheticalDocumentEmbedder := ⟨stubBase, ⟨stubLLM, stubPrompt⟩⟩

example : HypotheticalDocumentEmbedder.combine_embeddings [[1, 3], [3, 1]] =
    .ok [2, 2] := by
  simp [HypotheticalDocumentEmbedder.combine_embeddings, List.range_succ]
  norm_num

example : HypotheticalDocumentEmbedder.combine_embeddings [] = .error .typeError := rfl

example : HypotheticalDocumentEmbedder.combine_embeddings [[1, 2], [3]] =
    .error .valueError := rfl

example : HypotheticalDocumentEmbedder.embed_query stubEmbedder "q" =
    .error .typeError := rfl

/-- On a block of rows that all share the head's length, `combine_embeddings`
takes the non-error branch and returns the componentwise sum divided by the
number of rows. -/
lemma combine_embeddings_uniform (v : List ℚ) (vs : List (List ℚ))
    (h : ∀ w ∈ vs, w.length = v.length) :
    HypotheticalDocumentEmbedder.combine_embeddings (v :: vs) =
      .ok ((List.range v.length).map fun i =>
        ((v :: vs).map fun w => w.getD i 0).sum / ((v :: vs).length : ℚ)) := by
  have hall : (vs.all fun w => w.length == v.length) = true := by
    simp only [List.all_eq_true, beq_iff_eq]
    exact h
  simp [HypotheticalDocumentEmbedder.combine_embeddings, hall]

/-- Reading component `i < n` of a list built by mapping `f` over `range n`
gives `f i`. -/
lemma getD_map_range (n : ℕ) (f : ℕ → ℚ) (i : ℕ) (h : i < n) :
    ((List.range n).map f).getD i 0 = f i := by
  rw [List.getD_eq_getElem?_getD]
  simp [List.getElem?_range, h]

/-- Rebuilding a list from its `getD` reads over `range` of its length is the
identity. -/
lemma map_range_getD (v : List ℚ) :
    ((List.range v.length).map fun i => v.getD i 0) = v := by
  apply List.ext_getElem
  · simp
  · intro i h1 h2
    rw [List.getElem_map, List.getElem_range, List.getD_eq_getElem]

/-- C1: for every non-empty list of embedding vectors of common dimensionality
`D`, `combine_embeddings` succeeds and every component `i < D` of the result is
the arithmetic mean (sum divided by count) of the `i`-th components of the
inputs. -/
theorem combine_embeddings_is_elementwise_mean (es : List (List ℚ)) (D : ℕ)
    (hne : es ≠ []) (hD : ∀ w ∈ es, w.length = D) :
    ∃ r, HypotheticalDocumentEmbedder.combine_embeddings es = .ok r ∧
      r.length = D ∧
      ∀ i, i < D →
        r.getD i 0 = (es.map fun w => w.getD i 0).sum / (es.length : ℚ) := by
  match es with
  | [] => exact absurd rfl hne
  | v :: vs =>
    have hv : v.length = D := hD v (by simp)
    have h' : ∀ w ∈ vs, w.length = v.length := fun w hw =>
      (hD w (List.mem_cons_of_mem v hw)).trans hv.symm
    refine ⟨_, combine_embeddings_uniform v vs h', ?_, ?_⟩
    · simp [hv]
    · intro i hi
      rw [getD_map_range v.length _ i (hv ▸ hi)]

/-- C1 witness: the mean property instantiated on `[[1, 3], [3, 1]]` with
dimensionality 2. -/
theorem combine_embeddings_is_elementwise_mean_witness :
    ∃ r, HypotheticalDocumentEmbedder.combine_embeddings [[1, 3], [3, 1]] = .ok r ∧
      r.length = 2 ∧
      ∀ i, i < 2 →
        r.getD i 0 = (([[1, 3], [3, 1]] : List (List ℚ)).map fun w => w.getD i 0).sum /
          (([[1, 3], [3, 1]] : List (List ℚ)).length : ℚ) :=
  combine_embeddings_is_elementwise_mean [[1, 3], [3, 1]] 2 (by decide) (by decide)

/-- C5: combining a singleton list of vectors returns exactly that vector. -/
theorem combine_embeddings_singleton (v : List ℚ) :
    HypotheticalDocumentEmbedder.combine_embeddings [v] = .ok v := by
  rw [combine_embeddings_uniform v [] (by simp)]
  congr 1
  apply List.ext_getElem
  · simp
  · intro i h1 h2
    rw [List.getElem_map, List.getElem_range, ← List.getD_eq_getElem v 0 h2]
    simp

/-- C8: for every non-empty list of embedding vectors of common dimensionality
`D`, the combined vector has length exactly `D`. -/
theorem combine_embeddings_preserves_dimension (es : List (List ℚ)) (D : ℕ)
    (hne : es ≠ []) (hD : ∀ w ∈ es, w.length = D) :
    ∃ r, HypotheticalDocumentEmbedder.combine_embeddings es = .ok r ∧
      r.length = D := by
  match es with
  | [] => exact absurd rfl hne
  | v :: vs =>
    have hv : v.length = D := hD v (by simp)
    have h' : ∀ w ∈ vs, w.length = v.length := fun w hw =>
      (hD w (List.mem_cons_of_mem v hw)).trans hv.symm
    exact ⟨_, combine_embeddings_uniform v vs h', by simp [hv]⟩

/-- C8 witness: the dimension property instantiated on `[[1, 3], [3, 1]]`. -/
theorem combine_embeddings_preserves_dimension_witness :
    ∃ r, HypotheticalDocumentEmbedder.combine_embeddings [[1, 3], [3, 1]] = .ok r ∧
      r.length = 2 :=
  combine_embeddings_preserves_dimension [[1, 3], [3, 1]] 2 (by decide) (by decide)

/-- C6: permuting a non-empty list of equal-length embedding vectors does not
change the combined result. -/
theorem combine_embeddings_perm_invariant (es es' : List (List ℚ)) (D : ℕ)
    (hperm : es.Perm es') (hne : es ≠ []) (hD : ∀ w ∈ es, w.length = D) :
    HypotheticalDocumentEmbedder.combine_embeddings es =
      HypotheticalDocumentEmbedder.combine_embeddings es' := by
  match es, es' with
  | [], _ => exact absurd rfl hne
  | v :: vs, [] => exact absurd hperm.length_eq (by simp)
  | v :: vs, v' :: vs' =>
    have hD' : ∀ w ∈ v' :: vs', w.length = D := fun w hw => hD w (hperm.mem_iff.mpr hw)
    have hv : v.length = D := hD v (by simp)
    have hv' : v'.length = D := hD' v' (by simp)
    rw [combine_embeddings_uniform v vs
        (fun w hw => (hD w (List.mem_cons_of_mem v hw)).trans hv.symm),
      combine_embeddings_uniform v' vs'
        (fun w hw => (hD' w (List.mem_cons_of_mem v' hw)).trans hv'.symm)]
    rw [hv, hv']
    congr 1
    apply List.map_congr_left
    intro i _
    rw [hperm.length_eq, (hperm.map fun w => w.getD i 0).sum_eq]

/-- C6 witness: swapping the two rows of `[[1, 2], [3, 4]]` leaves the
combined result unchanged. -/
theorem combine_embeddings_perm_invariant_witness :
    HypotheticalDocumentEmbedder.combine_embeddings [[1, 2], [3, 4]] =
      HypotheticalDocumentEmbedder.combine_embeddings [[3, 4], [1, 2]] :=
  combine_embeddings_perm_invariant [[1, 2], [3, 4]] [[3, 4], [1, 2]] 2
    (List.Perm.swap [3, 4] [1, 2] []) (by decide) (by decide)

/-- C9: if the rows do not all share the head row's length (unequal vector
lengths), `combine_embeddings` fails with the numeric ValueError instead of
returning a combined vector. -/
theorem combine_embeddings_ragged_fails (v : List ℚ) (vs : List (List ℚ))
    (h : ¬ ∀ w ∈ vs, w.length = v.length) :
    HypotheticalDocumentEmbedder.combine_embeddings (v :: vs) =
      .error .valueError := by
  have hall : ¬ ((vs.all fun w => w.length == v.length) = true) := by
    simpa [List.all_eq_true] using h
  simp only [HypotheticalDocumentEmbedder.combine_embeddings]
  rw [if_neg hall]

/-- C9 witness: combining `[[1, 2], [3]]`, whose rows have lengths 2 and 1,
fails with the ValueError. -/
theorem combine_embeddings_ragged_fails_witness :
    HypotheticalDocumentEmbedder.combine_embeddings [[1, 2], [3]] =
      .error .valueError :=
  combine_embeddings_ragged_fails [1, 2] [[3]] (by decide)

/-- C7: `embed_documents` forwards to the base embedding model's batch
operation and returns its vectors unchanged; under the interface contract that
the base model returns one vector per input, so does `embed_documents`. -/
theorem embed_documents_is_passthrough (e : HypotheticalDocumentEmbedder)
    (texts : List String)
    (h : (e.base_embeddings.embed_documents texts).length = texts.length) :
    e.embed_documents texts = e.base_embeddings.embed_documents texts ∧
      (e.embed_documents texts).length = texts.length :=
  ⟨rfl, h⟩

/-- C7 witness: the pass-through property on the stub embedder with documents
`["a", "b"]`. -/
theorem embed_documents_is_passthrough_witness :
    HypotheticalDocumentEmbedder.embed_documents stubEmbedder ["a", "b"] =
      stubEmbedder.base_embeddings.embed_documents ["a", "b"] ∧
      (HypotheticalDocumentEmbedder.embed_documents stubEmbedder ["a", "b"]).length =
        (["a", "b"] : List String).length :=
  embed_documents_is_passthrough stubEmbedder ["a", "b"] rfl

/-- C3: when a custom prompt is supplied, `from_llm` succeeds and the built
embedder's LLM chain uses that prompt, whatever `prompt_key` was passed
(including a key present in the registry). -/
theorem from_llm_custom_prompt_precedence (llm : BaseLanguageModel)
    (base : Embeddings) (pmap : List (String × BasePromptTemplate))
    (key : Option String) (p : BasePromptTemplate) :
    ∃ e, HypotheticalDocumentEmbedder.from_llm llm base pmap key (some p) = .ok e ∧
      e.llm_chain.prompt = p ∧ e.llm_chain.llm = llm ∧ e.base_embeddings = base :=
  ⟨_, rfl, rfl, rfl, rfl⟩

/-- C4: with no custom prompt and a prompt key that is absent from the
registry (or no key at all), `from_llm` fails with the configuration error
carrying exactly the registry's key list, and no embedder is returned. -/
theorem from_llm_missing_prompt_fails (llm : BaseLanguageModel)
    (base : Embeddings) (pmap : List (String × BasePromptTemplate))
    (key : Option String)
    (h : ∀ k, key = some k → pmap.lookup k = none) :
    HypotheticalDocumentEmbedder.from_llm llm base pmap key none =
      .error (.mustSpecifyPromptKey (pmap.map Prod.fst)) := by
  match key with
  | none => rfl
  | some k => simp [HypotheticalDocumentEmbedder.from_llm, h k rfl]

/-- When the chain declares at least one input key, `embed_query` reduces to
combining the embeddings of exactly the completions the model returns for the
prompt rendered with the first key bound to the query text. -/
lemma embed_query_eq (e : HypotheticalDocumentEmbedder) (text k : String)
    (ks : List String) (hk : e.llm_chain.input_keys = k :: ks) :
    e.embed_query text =
      HypotheticalDocumentEmbedder.combine_embeddings
        (e.base_embeddings.embed_documents
          (e.llm_chain.llm.generate_prompt (e.llm_chain.prompt.format [(k, text)]))) := by
  unfold HypotheticalDocumentEmbedder.embed_query
  rw [hk]
  simp [LLMChain.generate, HypotheticalDocumentEmbedder.embed_documents,
    List.map_map, Function.comp]
  rw [show (Generation.text ∘ Generation.mk) = id from rfl, List.map_id]

/-- C10: when the chain's input keys are `k :: ks`, `embed_query` submits the
single binding of `k` (the first input key) to the query text and embeds only
the first generation group of the result; the keys in `ks` never appear. -/
theorem embed_query_binds_first_key_only (e : HypotheticalDocumentEmbedder)
    (text k : String) (ks : List String)
    (hk : e.llm_chain.input_keys = k :: ks) :
    e.embed_query text =
      HypotheticalDocumentEmbedder.combine_embeddings
        (e.base_embeddings.embed_documents
          (((e.llm_chain.generate [[(k, text)]]).generations.headD []).map
            Generation.text)) := by
  rw [embed_query_eq e text k ks hk]
  simp [LLMChain.generate, List.map_map, Function.comp]
  rw [show (Generation.text ∘ Generation.mk) = id from rfl, List.map_id]

/-- C10 witness: the first-key binding property on the stub embedder, whose
prompt declares the single variable `"QUESTION"`. -/
theorem embed_query_binds_first_key_only_witness :
    HypotheticalDocumentEmbedder.embed_query stubEmbedder "q" =
      HypotheticalDocumentEmbedder.combine_embeddings
        (stubEmbedder.base_embeddings.embed_documents
          (((stubEmbedder.llm_chain.generate [[("QUESTION", "q")]]).generations.headD
            []).map Generation.text)) :=
  embed_query_binds_first_key_only stubEmbedder "q" "QUESTION" [] rfl

/-- C2 counterexample: with a generative model stubbed to return zero
completions, `embed_query` fails with the incidental TypeError of iterating
the NaN mean of an empty array, not with a dedicated empty-candidate error. -/
theorem embed_query_empty_candidates_no_dedicated_error :
    HypotheticalDocumentEmbedder.embed_query stubEmbedder "q" =
      .error .typeError ∧
      HypotheticalDocumentEmbedder.embed_query stubEmbedder "q" ≠
        .error .emptyCandidateError := by
  have h1 : HypotheticalDocumentEmbedder.embed_query stubEmbedder "q" =
      .error .typeError := rfl
  refine ⟨h1, fun hcon => ?_⟩
  have h2 := h1.symm.trans hcon
  exact absurd (Except.error.inj h2) (by decide)

/-- C2 amended: when the generative model returns zero completions for the
rendered prompt, `embed_query` fails — it never returns a vector — but the
failure is the incidental TypeError from the empty numeric combination rather
than a dedicated empty-candidate error. -/
theorem embed_query_empty_candidates_fails_type_error
    (e : HypotheticalDocumentEmbedder) (text k : String) (ks : List String)
    (hk : e.llm_chain.input_keys = k :: ks)
    (hgen : e.llm_chain.llm.generate_prompt (e.llm_chain.prompt.format [(k, text)]) = [])
    (hbase : e.base_embeddings.embed_documents [] = []) :
    e.embed_query text = .error .typeError := by
  rw [embed_query_eq e text k ks hk, hgen, hbase]
  rfl

/-- C2 amended witness: the stub generative model returns zero completions and
`embed_query` on the stub embedder fails with the TypeError. -/
theorem embed_query_empty_candidates_fails_type_error_witness :
    HypotheticalDocumentEmbedder.embed_query stubEmbedder "q" =
      .error .typeError :=
  embed_query_empty_candidates_fails_type_error stubEmbedder "q" "QUESTION" []
    rfl rfl rfl

/-- C4 witness: an unknown key `"nope"` against a registry with single key
`"web_search"` yields the configuration error listing `["web_search"]`. -/
theorem from_llm_missing_prompt_fails_witness :
    HypotheticalDocumentEmbedder.from_llm stubLLM stubBase
      [("web_search", stubPrompt)] (some "nope") none =
      .error (.mustSpecifyPromptKey ["web_search"]) :=
  from_llm_missing_prompt_fails stubLLM stubBase [("web_search", stubPrompt)]
    (some "nope") (fun k hk => by cases hk; rfl)
